import Mathlib

/-!
Shallow embedding of the command-and-control core of the print-nanny-cli
repository, together with proofs about it.

Embedded components:
* the protocol dispatch layer (`nats/src/message_v2.rs`): the closed
  `NatsRequest`/`NatsReply` sum types, `deserialize_payload`, and `handle`
  with every per-subject handler;
* the recording store (`db/src/video_recording.rs`): `start_new`,
  `get_current`, `get_by_id`, `update`;
* the version-controlled settings engine (`services/src/settings/vcs.rs`):
  `write_settings`, `git_add_all`, `git_commit`, `save_and_commit`,
  `git_revert`, `to_payload`, `get_rev_list`;
* the pipeline factory (`gst-pipelines/src/factory.rs`): `make_pipeline`.

External effects (dbus calls, the cloud REST client, serde payload parsing,
clock and uuid generation, the remote gst pipeline endpoint) are passed in
as explicit environment values, mirroring the exact sequence of fallible
calls each Rust function makes.
-/

namespace PrintNanny

/-- Raw NATS payload bytes (`bytes::Bytes`). -/
abbrev Payload := List Nat

/-- Effect/transport error payloads are abstracted to their message string. -/
abbrev Err := String

/-! ## Data model: request payload records

Each structure mirrors the `printnanny_asyncapi_models` record of the same
name, restricted to the fields the embedded code reads. -/

/-- `SettingsApp`: the four configuration domains. -/
inductive SettingsApp
  | Printnanny
  | Octoprint
  | Moonraker
  | Klipper
deriving DecidableEq

/-- `SettingsFormat` (services/src/settings): serialization format of a domain file. -/
inductive SettingsFormat
  | Toml
  | Yaml
  | Ini
  | Json
deriving DecidableEq

/-- `SettingsFile`: materialized text of one domain's config file.
`app` is the domain tag read by `handle_settings_apply` via `request.file.app`. -/
structure SettingsFile where
  app : SettingsApp
  file_name : String
  file_format : SettingsFormat
  content : String
deriving DecidableEq

/-- `CrashReportOsLogsRequest`; the handler only reads `id`. -/
structure CrashReportOsLogsRequest where
  id : String
deriving DecidableEq

/-- `PrintNannyCloudAuthRequest`. -/
structure PrintNannyCloudAuthRequest where
  email : String
  api_url : String
  api_token : String
deriving DecidableEq

/-- `SettingsFileApplyRequest`. -/
structure SettingsFileApplyRequest where
  file : SettingsFile
  git_head_commit : String
  git_commit_msg : String
deriving DecidableEq

/-- `SettingsFileRevertRequest`. -/
structure SettingsFileRevertRequest where
  app : SettingsApp
  git_commit : String
  files : List SettingsFile
deriving DecidableEq

/-- `VideoStreamSettings`, restricted to the fields the handlers read:
`settings.video_stream.recording.cloud_sync` (camera recording stop) and the
hls feature flag. -/
structure VideoStreamSettings where
  hls_enabled : Bool
  recording_cloud_sync : Bool
deriving DecidableEq

/-- `SystemdManagerUnitFilesRequest`. -/
structure SystemdManagerUnitFilesRequest where
  files : List String
deriving DecidableEq

/-- `SystemdManagerGetUnitRequest`. -/
structure SystemdManagerGetUnitRequest where
  unit_name : String
deriving DecidableEq

/-- `SystemdManagerRestartUnitRequest`. -/
structure SystemdManagerRestartUnitRequest where
  unit_name : String
deriving DecidableEq

/-- `SystemdManagerStartUnitRequest`. -/
structure SystemdManagerStartUnitRequest where
  unit_name : String
deriving DecidableEq

/-- `SystemdManagerStopUnitRequest`. -/
structure SystemdManagerStopUnitRequest where
  unit_name : String
deriving DecidableEq

/-- `NatsRequest` (message_v2.rs lines 52-115): the closed request sum type,
one variant per subject pattern. -/
inductive NatsRequest
  | CameraRecordingLoadRequest
  | CameraRecordingStartRequest
  | CameraRecordingStopRequest
  | CameraLoadRequest
  | PrintNannyCloudSyncRequest
  | CrashReportOsLogsRequest (request : CrashReportOsLogsRequest)
  | DeviceInfoLoadRequest
  | PrintNannyCloudAuthRequest (request : PrintNannyCloudAuthRequest)
  | SettingsFileLoadRequest
  | SettingsFileApplyRequest (request : SettingsFileApplyRequest)
  | SettingsFileRevertRequest (request : SettingsFileRevertRequest)
  | CameraSettingsFileApplyRequest (request : VideoStreamSettings)
  | CameraSettingsFileLoadRequest
  | SystemdManagerDisableUnitsRequest (request : SystemdManagerUnitFilesRequest)
  | SystemdManagerEnableUnitsRequest (request : SystemdManagerUnitFilesRequest)
  | SystemdManagerGetUnitRequest (request : SystemdManagerGetUnitRequest)
  | SystemdManagerGetUnitFileStateRequest (request : SystemdManagerGetUnitRequest)
  | SystemdManagerRestartUnitRequest (request : SystemdManagerRestartUnitRequest)
  | SystemdManagerStartUnitRequest (request : SystemdManagerStartUnitRequest)
  | SystemdManagerStopUnitRequest (request : SystemdManagerStopUnitRequest)
deriving DecidableEq

/-- Decode-stage errors of `deserialize_payload`: the catch-all arm
(`anyhow!("NATS message handler not implemented for subject pattern {}")`)
and a serde_json deserialization failure propagated by `?`. -/
inductive NatsDecodeError
  | unroutableSubject (subject : String)
  | payloadDeserialization
deriving DecidableEq

/-- The serde_json payload parsers used by `deserialize_payload`, one per
payload-carrying schema. `serde_json::from_slice` is a total function from
bytes to a parse result; parsers are passed in abstractly. -/
structure PayloadParsers where
  crashReportOsLogs : Payload → Option CrashReportOsLogsRequest
  printNannyCloudAuth : Payload → Option PrintNannyCloudAuthRequest
  settingsFileApply : Payload → Option SettingsFileApplyRequest
  settingsFileRevert : Payload → Option SettingsFileRevertRequest
  videoStreamSettings : Payload → Option VideoStreamSettings
  systemdManagerUnitFiles : Payload → Option SystemdManagerUnitFilesRequest
  systemdManagerGetUnit : Payload → Option SystemdManagerGetUnitRequest
  systemdManagerRestartUnit : Payload → Option SystemdManagerRestartUnitRequest
  systemdManagerStartUnit : Payload → Option SystemdManagerStartUnitRequest
  systemdManagerStopUnit : Payload → Option SystemdManagerStopUnitRequest

/-- Lift one parser application to the decode result, tagging a parse
failure as `payloadDeserialization` (the `?` on `serde_json::from_slice`). -/
def parsePayload {α : Type} (p : Payload → Option α) (payload : Payload)
    (mk : α → NatsRequest) : Except NatsDecodeError NatsRequest :=
  match p payload with
  | some r => .ok (mk r)
  | none => .error .payloadDeserialization

/-- `NatsRequest::deserialize_payload` (message_v2.rs lines 875-948): exact
string match on the subject pattern; payload-free variants never inspect the
payload; unknown patterns fall to the catch-all error arm. -/
def deserialize_payload (P : PayloadParsers) (subject_pattern : String)
    (payload : Payload) : Except NatsDecodeError NatsRequest :=
  if subject_pattern = "pi.{pi_id}.command.camera.recording.start" then
    .ok NatsRequest.CameraRecordingStartRequest
  else if subject_pattern = "pi.{pi_id}.command.camera.recording.stop" then
    .ok NatsRequest.CameraRecordingStopRequest
  else if subject_pattern = "pi.{pi_id}.command.camera.recording.load" then
    .ok NatsRequest.CameraRecordingLoadRequest
  else if subject_pattern = "pi.{pi_id}.command.cloud.sync" then
    .ok NatsRequest.PrintNannyCloudSyncRequest
  else if subject_pattern = "pi.{pi_id}.crash_reports.os" then
    parsePayload P.crashReportOsLogs payload NatsRequest.CrashReportOsLogsRequest
  else if subject_pattern = "pi.{pi_id}.cameras.load" then
    .ok NatsRequest.CameraLoadRequest
  else if subject_pattern = "pi.{pi_id}.device_info.load" then
    .ok NatsRequest.DeviceInfoLoadRequest
  else if subject_pattern = "pi.{pi_id}.settings.printnanny.cloud.auth" then
    parsePayload P.printNannyCloudAuth payload NatsRequest.PrintNannyCloudAuthRequest
  else if subject_pattern = "pi.{pi_id}.settings.file.load" then
    .ok NatsRequest.SettingsFileLoadRequest
  else if subject_pattern = "pi.{pi_id}.settings.file.apply" then
    parsePayload P.settingsFileApply payload NatsRequest.SettingsFileApplyRequest
  else if subject_pattern = "pi.{pi_id}.settings.file.revert" then
    parsePayload P.settingsFileRevert payload NatsRequest.SettingsFileRevertRequest
  else if subject_pattern = "pi.{pi_id}.settings.camera.apply" then
    parsePayload P.videoStreamSettings payload NatsRequest.CameraSettingsFileApplyRequest
  else if subject_pattern = "pi.{pi_id}.settings.camera.load" then
    .ok NatsRequest.CameraSettingsFileLoadRequest
  else if subject_pattern = "pi.{pi_id}.dbus.org.freedesktop.systemd1.Manager.DisableUnit" then
    parsePayload P.systemdManagerUnitFiles payload NatsRequest.SystemdManagerDisableUnitsRequest
  else if subject_pattern = "pi.{pi_id}.dbus.org.freedesktop.systemd1.Manager.EnableUnit" then
    parsePayload P.systemdManagerUnitFiles payload NatsRequest.SystemdManagerEnableUnitsRequest
  else if subject_pattern = "pi.{pi_id}.dbus.org.freedesktop.systemd1.Manager.GetUnit" then
    parsePayload P.systemdManagerGetUnit payload NatsRequest.SystemdManagerGetUnitRequest
  else if subject_pattern = "pi.{pi_id}.dbus.org.freedesktop.systemd1.Manager.GetUnitFileState" then
    parsePayload P.systemdManagerGetUnit payload NatsRequest.SystemdManagerGetUnitFileStateRequest
  else if subject_pattern = "pi.{pi_id}.dbus.org.freedesktop.systemd1.Manager.RestartUnit" then
    parsePayload P.systemdManagerRestartUnit payload NatsRequest.SystemdManagerRestartUnitRequest
  else if subject_pattern = "pi.{pi_id}.dbus.org.freedesktop.systemd1.Manager.StartUnit" then
    parsePayload P.systemdManagerStartUnit payload NatsRequest.SystemdManagerStartUnitRequest
  else if subject_pattern = "pi.{pi_id}.dbus.org.freedesktop.systemd1.Manager.StopUnit" then
    parsePayload P.systemdManagerStopUnit payload NatsRequest.SystemdManagerStopUnitRequest
  else
    .error (.unroutableSubject subject_pattern)

/-- The closed set of subject patterns handled by `deserialize_payload`, in
source order. -/
def knownSubjectPatterns : List String :=
  [ "pi.{pi_id}.command.camera.recording.start"
  , "pi.{pi_id}.command.camera.recording.stop"
  , "pi.{pi_id}.command.camera.recording.load"
  , "pi.{pi_id}.command.cloud.sync"
  , "pi.{pi_id}.crash_reports.os"
  , "pi.{pi_id}.cameras.load"
  , "pi.{pi_id}.device_info.load"
  , "pi.{pi_id}.settings.printnanny.cloud.auth"
  , "pi.{pi_id}.settings.file.load"
  , "pi.{pi_id}.settings.file.apply"
  , "pi.{pi_id}.settings.file.revert"
  , "pi.{pi_id}.settings.camera.apply"
  , "pi.{pi_id}.settings.camera.load"
  , "pi.{pi_id}.dbus.org.freedesktop.systemd1.Manager.DisableUnit"
  , "pi.{pi_id}.dbus.org.freedesktop.systemd1.Manager.EnableUnit"
  , "pi.{pi_id}.dbus.org.freedesktop.systemd1.Manager.GetUnit"
  , "pi.{pi_id}.dbus.org.freedesktop.systemd1.Manager.GetUnitFileState"
  , "pi.{pi_id}.dbus.org.freedesktop.systemd1.Manager.RestartUnit"
  , "pi.{pi_id}.dbus.org.freedesktop.systemd1.Manager.StartUnit"
  , "pi.{pi_id}.dbus.org.freedesktop.systemd1.Manager.StopUnit" ]

/-! ## Data model: reply payload records -/

/-- Timestamps (`DateTime<Utc>`) abstracted to a counter. -/
abbrev Time := Nat

/-- `VideoRecording` row (db/src/video_recording.rs lines 16-26). The nats
crate consumes this row through the edge-db crate; the asyncapi wire record
is a field-for-field copy (rfc3339 rendering of timestamps elided). -/
structure VideoRecording where
  id : String
  capture_done : Bool
  cloud_sync_done : Bool
  dir : String
  recording_start : Option Time
  recording_end : Option Time
  gcode_file_name : Option String
deriving DecidableEq

/-- `GitCommit` reply record (vcs.rs lines 38-44); `oid` is the commit id
rendered as a string. `header` and `ts` come from raw git data not modelled
here. -/
structure GitCommit where
  oid : String
  header : String
  message : String
  ts : Int
deriving DecidableEq

/-- `SystemdUnitChangeState` (asyncapi): the closed change vocabulary. -/
inductive SystemdUnitChangeState
  | Symlink
  | Unlink
deriving DecidableEq

/-- `SystemdUnitChange`: one enable/disable file-link mutation. -/
structure SystemdUnitChange where
  change : SystemdUnitChangeState
  file : String
  destination : String
deriving DecidableEq

/-- `SystemdUnitFileState` (asyncapi): closed unit-file-state vocabulary. -/
inductive SystemdUnitFileState
  | Enabled
  | EnabledMinusRuntime
  | Linked
  | LinkedMinusRuntime
  | Masked
  | MaskedMinusRuntime
  | Static
  | Disabled
  | Invalid
deriving DecidableEq

/-- `SystemdUnit`, restricted to its identifying field. -/
structure SystemdUnit where
  unit_name : String
deriving DecidableEq

/-- `CameraRecordingLoadReply`. -/
structure CameraRecordingLoadReply where
  recordings : List VideoRecording
  current : Option VideoRecording
deriving DecidableEq

/-- `CameraRecordingStarted`. -/
structure CameraRecordingStarted where
  recording : VideoRecording
deriving DecidableEq

/-- `CameraRecordingStopped`. -/
structure CameraRecordingStopped where
  recording : Option VideoRecording
deriving DecidableEq

/-- `CamerasLoadReply`; cameras abstracted to their names. -/
structure CamerasLoadReply where
  cameras : List String
deriving DecidableEq

/-- `PrintNannyCloudSyncReply`; rfc3339 timestamps of sync start and end. -/
structure PrintNannyCloudSyncReply where
  start_ts : String
  end_ts : String
deriving DecidableEq

/-- `CrashReportOsLogsReply`. -/
structure CrashReportOsLogsReply where
  id : String
  updated_dt : String
deriving DecidableEq

/-- `DeviceInfoLoadReply`; interface addresses abstracted to strings. -/
structure DeviceInfoLoadReply where
  issue : String
  os_release : String
  printnanny_cli_version : String
  ifaddrs : List String
deriving DecidableEq

/-- `PrintNannyCloudAuthReply`. -/
structure PrintNannyCloudAuthReply where
  status_code : Nat
  msg : String
deriving DecidableEq

/-- `SettingsFileLoadReply`. -/
structure SettingsFileLoadReply where
  files : List SettingsFile
  git_head_commit : String
  git_history : List GitCommit
deriving DecidableEq

/-- `SettingsFileApplyReply`. -/
structure SettingsFileApplyReply where
  file : SettingsFile
  git_head_commit : String
  git_history : List GitCommit
deriving DecidableEq

/-- `SettingsFileRevertReply`. -/
structure SettingsFileRevertReply where
  app : SettingsApp
  files : List SettingsFile
  git_head_commit : String
  git_history : List GitCommit
deriving DecidableEq

/-- `SystemdManagerDisableUnitsReply`. -/
structure SystemdManagerDisableUnitsReply where
  changes : List SystemdUnitChange
  request : SystemdManagerUnitFilesRequest
deriving DecidableEq

/-- `SystemdManagerEnableUnitsReply`. -/
structure SystemdManagerEnableUnitsReply where
  changes : List SystemdUnitChange
  request : SystemdManagerUnitFilesRequest
deriving DecidableEq

/-- `SystemdManagerGetUnitReply`. -/
structure SystemdManagerGetUnitReply where
  unit : SystemdUnit
deriving DecidableEq

/-- `SystemdManagerGetUnitFileStateReply`. -/
structure SystemdManagerGetUnitFileStateReply where
  unit_file_state : SystemdUnitFileState
  request : SystemdManagerGetUnitRequest
deriving DecidableEq

/-- `SystemdManagerRestartUnitReply`. -/
structure SystemdManagerRestartUnitReply where
  job : String
  unit : SystemdUnit
deriving DecidableEq

/-- `SystemdManagerStartUnitReply`. -/
structure SystemdManagerStartUnitReply where
  job : String
  unit : SystemdUnit
deriving DecidableEq

/-- `SystemdManagerStopUnitReply`. -/
structure SystemdManagerStopUnitReply where
  job : String
  unit : SystemdUnit
deriving DecidableEq

/-- `NatsReply` (message_v2.rs lines 117-180): the closed reply sum type,
one variant per subject pattern, named symmetrically to `NatsRequest`. -/
inductive NatsReply
  | CameraRecordingLoadReply (reply : CameraRecordingLoadReply)
  | CameraRecordingStartReply (reply : CameraRecordingStarted)
  | CameraRecordingStopReply (reply : CameraRecordingStopped)
  | CameraLoadReply (reply : CamerasLoadReply)
  | PrintNannyCloudSyncReply (reply : PrintNannyCloudSyncReply)
  | CrashReportOsLogsReply (reply : CrashReportOsLogsReply)
  | DeviceInfoLoadReply (reply : DeviceInfoLoadReply)
  | PrintNannyCloudAuthReply (reply : PrintNannyCloudAuthReply)
  | SettingsFileLoadReply (reply : SettingsFileLoadReply)
  | SettingsFileApplyReply (reply : SettingsFileApplyReply)
  | SettingsFileRevertReply (reply : SettingsFileRevertReply)
  | CameraSettingsFileApplyReply (reply : VideoStreamSettings)
  | CameraSettingsFileLoadReply (reply : VideoStreamSettings)
  | SystemdManagerDisableUnitsReply (reply : SystemdManagerDisableUnitsReply)
  | SystemdManagerEnableUnitsReply (reply : SystemdManagerEnableUnitsReply)
  | SystemdManagerGetUnitReply (reply : SystemdManagerGetUnitReply)
  | SystemdManagerGetUnitFileStateReply (reply : SystemdManagerGetUnitFileStateReply)
  | SystemdManagerRestartUnitReply (reply : SystemdManagerRestartUnitReply)
  | SystemdManagerStartUnitReply (reply : SystemdManagerStartUnitReply)
  | SystemdManagerStopUnitReply (reply : SystemdManagerStopUnitReply)
deriving DecidableEq

/-- One tag per request/reply subject, used to state the symmetric
correspondence between the two sum types. -/
inductive MsgKind
  | cameraRecordingLoad
  | cameraRecordingStart
  | cameraRecordingStop
  | cameraLoad
  | printNannyCloudSync
  | crashReportOsLogs
  | deviceInfoLoad
  | printNannyCloudAuth
  | settingsFileLoad
  | settingsFileApply
  | settingsFileRevert
  | cameraSettingsFileApply
  | cameraSettingsFileLoad
  | systemdManagerDisableUnits
  | systemdManagerEnableUnits
  | systemdManagerGetUnit
  | systemdManagerGetUnitFileState
  | systemdManagerRestartUnit
  | systemdManagerStartUnit
  | systemdManagerStopUnit
deriving DecidableEq

/-- The subject tag of a request variant; total over the closed sum type. -/
def NatsRequest.kind : NatsRequest → MsgKind
  | .CameraRecordingLoadRequest => .cameraRecordingLoad
  | .CameraRecordingStartRequest => .cameraRecordingStart
  | .CameraRecordingStopRequest => .cameraRecordingStop
  | .CameraLoadRequest => .cameraLoad
  | .PrintNannyCloudSyncRequest => .printNannyCloudSync
  | .CrashReportOsLogsRequest _ => .crashReportOsLogs
  | .DeviceInfoLoadRequest => .deviceInfoLoad
  | .PrintNannyCloudAuthRequest _ => .printNannyCloudAuth
  | .SettingsFileLoadRequest => .settingsFileLoad
  | .SettingsFileApplyRequest _ => .settingsFileApply
  | .SettingsFileRevertRequest _ => .settingsFileRevert
  | .CameraSettingsFileApplyRequest _ => .cameraSettingsFileApply
  | .CameraSettingsFileLoadRequest => .cameraSettingsFileLoad
  | .SystemdManagerDisableUnitsRequest _ => .systemdManagerDisableUnits
  | .SystemdManagerEnableUnitsRequest _ => .systemdManagerEnableUnits
  | .SystemdManagerGetUnitRequest _ => .systemdManagerGetUnit
  | .SystemdManagerGetUnitFileStateRequest _ => .systemdManagerGetUnitFileState
  | .SystemdManagerRestartUnitRequest _ => .systemdManagerRestartUnit
  | .SystemdManagerStartUnitRequest _ => .systemdManagerStartUnit
  | .SystemdManagerStopUnitRequest _ => .systemdManagerStopUnit

/-- The subject tag of a reply variant; total over the closed sum type. -/
def NatsReply.kind : NatsReply → MsgKind
  | .CameraRecordingLoadReply _ => .cameraRecordingLoad
  | .CameraRecordingStartReply _ => .cameraRecordingStart
  | .CameraRecordingStopReply _ => .cameraRecordingStop
  | .CameraLoadReply _ => .cameraLoad
  | .PrintNannyCloudSyncReply _ => .printNannyCloudSync
  | .CrashReportOsLogsReply _ => .crashReportOsLogs
  | .DeviceInfoLoadReply _ => .deviceInfoLoad
  | .PrintNannyCloudAuthReply _ => .printNannyCloudAuth
  | .SettingsFileLoadReply _ => .settingsFileLoad
  | .SettingsFileApplyReply _ => .settingsFileApply
  | .SettingsFileRevertReply _ => .settingsFileRevert
  | .CameraSettingsFileApplyReply _ => .cameraSettingsFileApply
  | .CameraSettingsFileLoadReply _ => .cameraSettingsFileLoad
  | .SystemdManagerDisableUnitsReply _ => .systemdManagerDisableUnits
  | .SystemdManagerEnableUnitsReply _ => .systemdManagerEnableUnits
  | .SystemdManagerGetUnitReply _ => .systemdManagerGetUnit
  | .SystemdManagerGetUnitFileStateReply _ => .systemdManagerGetUnitFileState
  | .SystemdManagerRestartUnitReply _ => .systemdManagerRestartUnit
  | .SystemdManagerStartUnitReply _ => .systemdManagerStartUnit
  | .SystemdManagerStopUnitReply _ => .systemdManagerStopUnit

/-! ## Recording store (db/src/video_recording.rs)

The sqlite table is modelled as a list of rows in insertion order; the
connection string / connection errors are not modelled (queries on an open
store succeed), and `diesel::result::Error` surfaces only where a query can
fail on data (`first` on an empty result). -/

/-- Store state: the `video_recordings` table. -/
structure DbState where
  recordings : List VideoRecording
deriving DecidableEq

/-- Diesel data-level errors surfaced by the embedded queries. -/
inductive DbError
  | notFound
deriving DecidableEq

/-- `UpdateVideoRecording` changeset (db/src/video_recording.rs lines 61-70):
a `some` field overwrites, a `none` field is left unchanged (diesel
`AsChangeset` semantics). -/
structure UpdateVideoRecording where
  capture_done : Option Bool
  cloud_sync_done : Option Bool
  dir : Option String
  recording_start : Option Time
  recording_end : Option Time
  gcode_file_name : Option String
deriving DecidableEq

/-- Apply a changeset to one row (`diesel::update(...).set(row)`). -/
def applyChangeset (upd : UpdateVideoRecording) (r : VideoRecording) : VideoRecording :=
  { r with
    capture_done := upd.capture_done.getD r.capture_done
    cloud_sync_done := upd.cloud_sync_done.getD r.cloud_sync_done
    dir := upd.dir.getD r.dir
    recording_start := match upd.recording_start with
      | some t => some t
      | none => r.recording_start
    recording_end := match upd.recording_end with
      | some t => some t
      | none => r.recording_end
    gcode_file_name := match upd.gcode_file_name with
      | some s => some s
      | none => r.gcode_file_name }

namespace VideoRecording

/-- `VideoRecording::update` (lines 119-131): update every row whose `id`
matches the filter. -/
def update (db : DbState) (row_id : String) (row : UpdateVideoRecording) : DbState :=
  { recordings :=
      db.recordings.map (fun r => if r.id = row_id then applyChangeset row r else r) }

/-- `VideoRecording::get_by_id` (lines 132-141): `filter(id.eq(row_id)).first`;
`first` on an empty result is a `NotFound` error. -/
def get_by_id (db : DbState) (row_id : String) : Except DbError VideoRecording :=
  match db.recordings.find? (fun r => r.id = row_id) with
  | some r => .ok r
  | none => .error .notFound

/-- `VideoRecording::get_all` (lines 142-149): all rows ordered by id. -/
def get_all (db : DbState) : List VideoRecording :=
  db.recordings.mergeSort (fun a b => a.id ≤ b.id)

/-- Sort key for `ORDER BY recording_start DESC`: sqlite sorts NULL as the
smallest value, so rows with no `recording_start` come last under DESC. -/
def recordingStartKey (r : VideoRecording) : Nat :=
  match r.recording_start with
  | some t => t + 1
  | none => 0

/-- Descending insertion by `recording_start`. -/
def insertByStartDesc (r : VideoRecording) : List VideoRecording → List VideoRecording
  | [] => [r]
  | x :: xs =>
    if recordingStartKey x < recordingStartKey r then r :: x :: xs
    else x :: insertByStartDesc r xs

/-- `ORDER BY recording_start DESC` over a row list. -/
def sortByStartDesc (l : List VideoRecording) : List VideoRecording :=
  l.foldr insertByStartDesc []

/-- `VideoRecording::get_current` (lines 150-161): the row with
`capture_done = false` and the most recent `recording_start`, if any
(`filter(capture_done.eq(false)).order(recording_start.desc()).first.optional`). -/
def get_current (db : DbState) : Option VideoRecording :=
  (sortByStartDesc (db.recordings.filter (fun r => !r.capture_done))).head?

/-- `VideoRecording::start_new` (lines 255-280): generate a fresh uuid,
create the dedicated output directory `video_path/<uuid>`, and insert a new
row with `capture_done = false` and `cloud_sync_done = false`. There is no
guard against an existing current recording. The fresh uuid is supplied by
the environment. -/
def start_new (db : DbState) (fresh_id : String) (video_path : String) :
    VideoRecording × DbState :=
  let dirname := video_path ++ "/" ++ fresh_id
  let row : VideoRecording :=
    { id := fresh_id
      capture_done := false
      cloud_sync_done := false
      dir := dirname
      recording_start := none
      recording_end := none
      gcode_file_name := none }
  (row, { recordings := db.recordings ++ [row] })

end VideoRecording

/-- Number of rows with `capture_done = false` ("current" recordings). -/
def countCurrent (db : DbState) : Nat :=
  (db.recordings.filter (fun r => !r.capture_done)).length

/-! ## Version-controlled settings engine (services/src/settings/vcs.rs)

A domain's repository state is modelled as the materialized settings file
(`workdir`), the staged copy (`index`), and the linear commit log
(`commits`, newest first). Each commit snapshots the settings file content;
commit ids are drawn from an increasing counter standing in for content
hashes. The `pre_save`/`post_save` hooks of `PrintNannySettings`
(settings/printnanny.rs lines 436-444) only log and are no-ops here. -/

/-- A commit object: id, message and the snapshot of the domain file. -/
structure RepoCommit where
  oid : Nat
  message : String
  content : String
deriving DecidableEq

/-- Repository state for one settings domain. -/
structure GitRepo where
  commits : List RepoCommit
  workdir : String
  index : String
deriving DecidableEq

/-- Failure surfaces of the embedded vcs operations. -/
inductive VcsError
  | uninitialized
  | commitNotFound
  | revertConflict
deriving DecidableEq

namespace GitRepo

/-- Render a repo commit as the `GitCommit` reply record (vcs.rs lines
235-254); raw header and commit time are not modelled. -/
def RepoCommit.toGitCommit (c : RepoCommit) : GitCommit :=
  { oid := toString c.oid, header := "", message := c.message, ts := 0 }

/-- `to_payload` (vcs.rs lines 49-58): read the domain file from disk and
wrap it with its name and format. The `app` tag mirrors the argument the
nats handlers pass (`to_payload(SettingsApp::...)`). -/
def to_payload (repo : GitRepo) (app : SettingsApp) (file_name : String)
    (file_format : SettingsFormat) : SettingsFile :=
  { app := app, file_name := file_name, file_format := file_format,
    content := repo.workdir }

/-- `write_settings` (vcs.rs lines 108-132): create parent directories if
absent and overwrite the file. -/
def write_settings (repo : GitRepo) (content : String) : GitRepo :=
  { repo with workdir := content }

/-- `git_add_all` (vcs.rs lines 133-139): stage all changes. -/
def git_add_all (repo : GitRepo) : GitRepo :=
  { repo with index := repo.workdir }

/-- `git_head_commit_parent_count` (vcs.rs lines 141-146): parent count of
HEAD in the linear history. -/
def git_head_commit_parent_count (repo : GitRepo) : Except VcsError Nat :=
  match repo.commits with
  | [] => .error .uninitialized
  | _ :: rest => .ok rest.length

/-- `get_git_commit_message` (vcs.rs lines 148-156): generated message
`"PrintNanny updated <file> - revision #N"` with `N` = HEAD's parent count
plus one. -/
def get_git_commit_message (repo : GitRepo) (file_name : String) : String :=
  let n := match repo.commits with
    | [] => 1
    | _ :: rest => rest.length + 1
  "PrintNanny updated " ++ file_name ++ " - revision #" ++ toString n

/-- `get_git_head_commit` (vcs.rs lines 158-162). -/
def get_git_head_commit (repo : GitRepo) : Except VcsError GitCommit :=
  match repo.commits with
  | [] => .error .uninitialized
  | c :: _ => .ok (RepoCommit.toGitCommit c)

/-- `get_rev_list` (vcs.rs lines 164-180): commits reachable from HEAD,
newest first. -/
def get_rev_list (repo : GitRepo) : Except VcsError (List GitCommit) :=
  match repo.commits with
  | [] => .error .uninitialized
  | l => .ok (l.map RepoCommit.toGitCommit)

/-- `git_commit` (vcs.rs lines 182-201): stage all, write the tree from the
index, resolve HEAD's commit as the parent (failing on an empty repo), and
append a new commit with the supplied message or the generated one. -/
def git_commit (repo : GitRepo) (file_name : String) (commit_msg : Option String) :
    Except VcsError (Nat × GitRepo) :=
  let repo1 := git_add_all repo
  match repo1.commits with
  | [] => .error .uninitialized
  | parents =>
    let msg := commit_msg.getD (get_git_commit_message repo file_name)
    let oid := parents.length
    .ok (oid, { repo1 with commits := ⟨oid, msg, repo1.index⟩ :: parents })

/-- `save_and_commit` (vcs.rs lines 212-223): `pre_save`; `write_settings`;
`git_add_all`; `git_commit`; `post_save`. Hooks are no-ops. -/
def save_and_commit (repo : GitRepo) (file_name : String) (content : String)
    (commit_msg : Option String) : Except VcsError GitRepo :=
  let repo1 := write_settings repo content
  let repo2 := git_add_all repo1
  match git_commit repo2 file_name commit_msg with
  | .error e => .error e
  | .ok (_, repo3) => .ok repo3

/-- Find a commit and its parent in the newest-first log. -/
def findCommitWithParent : List RepoCommit → Nat → Option (RepoCommit × Option RepoCommit)
  | [], _ => none
  | c :: rest, oid =>
    if c.oid = oid then some (c, rest.head?)
    else findCommitWithParent rest oid

/-- `git_revert` (vcs.rs lines 203-210): resolve the target commit (HEAD
when no oid is given) and call `git2::Repository::revert`, which applies
the inverse patch of the commit to the working directory and index and does
NOT create a new commit. In this single-file snapshot model the inverse
patch applies cleanly exactly when the working file equals the target
commit's snapshot, restoring the parent snapshot (empty for a root commit);
otherwise the apply conflicts. -/
def git_revert (repo : GitRepo) (oid : Option Nat) : Except VcsError GitRepo :=
  let target := match oid with
    | some sha => findCommitWithParent repo.commits sha
    | none =>
      match repo.commits with
      | [] => none
      | c :: rest => some (c, rest.head?)
  match target with
  | none => .error .commitNotFound
  | some (c, parent) =>
    let parentContent := match parent with
      | some p => p.content
      | none => ""
    if repo.workdir = c.content then
      .ok { repo with workdir := parentContent, index := parentContent }
    else
      .error .revertConflict

/-- `git_revert_hooks` as invoked by the revert handlers (message_v2.rs
lines 433, 444, 460, 476): `pre_save`; `git_revert`; `post_save` — the same
hook bracketing as `save_and_commit`; the hooks are no-ops. The wrapper's
body lives in the settings crate alongside `git_revert`; its git semantics
are entirely those of `git_revert` above. -/
def git_revert_hooks (repo : GitRepo) (oid : Option Nat) : Except VcsError GitRepo :=
  git_revert repo oid

end GitRepo

/-! ## Pipeline factory (gst-pipelines/src/factory.rs) -/

/-- `gst_client::Error`, restricted to the shapes `make_pipeline`
distinguishes: a `BadStatus` HTTP code and any other transport error. -/
inductive GstClientError
  | BadStatus (code : Nat)
  | RequestFailed (msg : String)
deriving DecidableEq

/-- `reqwest::StatusCode::CONFLICT`. -/
def STATUS_CONFLICT : Nat := 409

/-- `PrintNannyPipelineFactory::make_pipeline` (factory.rs lines 33-64)
applied to the outcome of `pipeline.create(description)`: success and the
CONFLICT status are success ("already exists"); every other error is
propagated. -/
def make_pipeline (createResult : Except GstClientError Unit) :
    Except GstClientError Unit :=
  match createResult with
  | .ok _ => .ok ()
  | .error e =>
    match e with
    | .BadStatus code =>
      if code = STATUS_CONFLICT then .ok ()
      else .error (.BadStatus code)
    | .RequestFailed m => .error (.RequestFailed m)

/-- Modelled from the spec: the remote pipeline-serving endpoint (a
collaborator outside this repository). Creation of a pipeline whose name
the server already holds reports HTTP 409 CONFLICT; otherwise the pipeline
is created. -/
structure GstServer where
  pipelines : List String
deriving DecidableEq

/-- Modelled from the spec: one `pipeline.create` call against the remote
endpoint, returning the transport outcome and the new server state. -/
def pipeline_create (server : GstServer) (name : String) :
    Except GstClientError Unit × GstServer :=
  if name ∈ server.pipelines then
    (.error (.BadStatus STATUS_CONFLICT), server)
  else
    (.ok (), { pipelines := name :: server.pipelines })

/-- `provision(name, description)`: `make_pipeline` run against the remote
endpoint state. -/
def provision (server : GstServer) (name : String) :
    Except GstClientError Unit × GstServer :=
  let created := pipeline_create server name
  (make_pipeline created.1, created.2)

/-! ## Dispatch layer environment (message_v2.rs)

Every fallible external call a handler makes (dbus, cloud REST, gst
pipeline endpoint, disk, clock, uuid) is supplied as an environment value,
one field per call site, in the order the Rust code awaits them. -/

/-- A raw systemd change tuple `(change_type, file, destination)`. -/
abbrev RawUnitChange := String × String × String

/-- Outcomes of the systemd dbus calls issued through
`zbus_systemd::systemd1::ManagerProxy`. `connection` covers
`zbus::Connection::system()` together with `ManagerProxy::new`, the two
steps every dbus handler awaits first. `load_unit` folds in the
`SystemdUnit::from_owned_object_path` conversion. -/
structure DbusEnv where
  connection : Except Err Unit
  disable_unit_files : List String → Except Err (List RawUnitChange)
  enable_unit_files : List String → Except Err (Bool × List RawUnitChange)
  reload : Except Err Unit
  start_unit : String → String → Except Err String
  stop_unit : String → String → Except Err String
  restart_unit : String → String → Except Err String
  get_unit_file_state : String → Except Err String
  load_unit : String → Except Err SystemdUnit

/-- Outcomes of the cloud REST client (`ApiService`). -/
structure ApiEnv where
  new_ok : Except Err Unit
  connect_cloud_account : String → String → Except Err Unit
  crash_report_update : String → Except Err (String × String)
  sync : Except Err Unit

/-- The `PrintNannySettings` instance as seen by the dispatch layer: its
video-stream section plus the outcomes of the settings-engine operations the
handlers call on it. The engine itself is embedded separately as `GitRepo`. -/
structure SettingsEngineEnv where
  video_stream : VideoStreamSettings
  payload : SettingsApp → Except Err SettingsFile
  head_commit : Except Err GitCommit
  rev_list : Except Err (List GitCommit)
  save_and_commit_outcome : String → Option String → Except Err Unit
  git_revert_outcome : Nat → Except Err Unit
  to_toml_string_outcome : Except Err String
  issue_txt : Except Err String
  os_release : Except Err String

/-- Outcomes of the gst pipeline factory calls made by the recording and
cloud-sync handlers; `start_video_recording_pipeline` receives the
recording's output location. -/
structure FactoryEnv where
  start_video_recording_pipeline : String → Except Err Unit
  stop_video_recording_pipeline : Except Err Unit
  sync_optional_pipelines : Except Err Unit

/-- The full effect environment of one `handle` invocation. -/
structure Env where
  db : DbState
  fresh_recording_id : String
  video_path : String
  now : Time
  now_rfc3339_first : String
  now_rfc3339_second : String
  camera_commit_ts : String
  settings : Except Err SettingsEngineEnv
  factory : FactoryEnv
  dbus : DbusEnv
  api : ApiEnv
  ifaddrs : List String
  cameras : Except Err (List String)
  oid_parse : String → Except Err Nat

/-- Errors a handler propagates to the dispatch layer (`anyhow::Error`),
tagged by origin. `panicked` marks a reached `unimplemented!`. -/
inductive HandlerError
  | db (e : DbError)
  | pipeline (e : Err)
  | settings (e : Err)
  | dbus (e : Err)
  | api (e : Err)
  | io (e : Err)
  | vcs (e : Err)
  | oid (e : Err)
  | panicked (msg : String)
deriving DecidableEq

/-- `PRINTNANNY_RECORDING_SERVICE_TEMPLATE` (printnanny_dbus
systemd1::models): prefix of the per-recording templated sync unit
`<template><recording_id>.service`. -/
def PRINTNANNY_RECORDING_SERVICE_TEMPLATE : String := "printnanny-recording-sync@"

/-- `handle_camera_recording_load` (message_v2.rs lines 183-197). -/
def handle_camera_recording_load (env : Env) : Except HandlerError NatsReply :=
  let recordings := VideoRecording.get_all env.db
  let current := VideoRecording.get_current env.db
  .ok (.CameraRecordingLoadReply { recordings := recordings, current := current })

/-- `handle_camera_recording_start` (message_v2.rs lines 199-228):
`start_new` (no guard against an existing current recording), start the
recording pipeline, stamp `recording_start`, re-read the row, reply. The
updated store state is returned alongside the reply. -/
def handle_camera_recording_start (env : Env) :
    Except HandlerError (NatsReply × DbState) :=
  let started := VideoRecording.start_new env.db env.fresh_recording_id env.video_path
  let recording := started.1
  let db1 := started.2
  match env.factory.start_video_recording_pipeline recording.dir with
  | .error e => .error (.pipeline e)
  | .ok _ =>
    let upd : UpdateVideoRecording :=
      { capture_done := none, cloud_sync_done := none, dir := none,
        recording_start := some env.now, recording_end := none,
        gcode_file_name := none }
    let db2 := VideoRecording.update db1 recording.id upd
    match VideoRecording.get_by_id db2 recording.id with
    | .error e => .error (.db e)
    | .ok recording2 =>
      .ok (.CameraRecordingStartReply { recording := recording2 }, db2)

/-- The changeset `handle_camera_recording_stop` writes: mark the capture
finished and stamp `recording_end`. -/
def stopChangeset (now : Time) : UpdateVideoRecording :=
  { capture_done := some true, cloud_sync_done := none, dir := none,
    recording_start := none, recording_end := some now,
    gcode_file_name := none }

/-- `handle_camera_recording_stop` (message_v2.rs lines 230-309): look up
the current recording; signal EOS to the pipeline; if cloud sync is enabled
and a recording exists, attempt to start the templated sync unit — the
`StartUnit` job result is only logged, both on success and on failure
(lines 259-273); then, whatever that outcome, mark the row finished, stamp
`recording_end`, re-read it and reply. With no current recording the reply
carries no recording reference. -/
def handle_camera_recording_stop (env : Env) :
    Except HandlerError (NatsReply × DbState) :=
  let recording := VideoRecording.get_current env.db
  match env.factory.stop_video_recording_pipeline with
  | .error e => .error (.pipeline e)
  | .ok _ =>
  match env.settings with
  | .error e => .error (.settings e)
  | .ok settings =>
  let syncStep : Except HandlerError Unit :=
    if settings.video_stream.recording_cloud_sync then
      match recording with
      | some rec =>
        match env.dbus.connection with
        | .error e => .error (.dbus e)
        | .ok _ =>
          let unit_name :=
            PRINTNANNY_RECORDING_SERVICE_TEMPLATE ++ rec.id ++ ".service"
          match env.dbus.start_unit unit_name "fail" with
          | .ok _ => .ok ()
          | .error _ => .ok ()
      | none => .ok ()
    else .ok ()
  match syncStep with
  | .error e => .error e
  | .ok _ =>
  match recording with
  | some rec =>
    let db1 := VideoRecording.update env.db rec.id (stopChangeset env.now)
    match VideoRecording.get_by_id db1 rec.id with
    | .error e => .error (.db e)
    | .ok rec2 =>
      .ok (.CameraRecordingStopReply { recording := some rec2 }, db1)
  | none =>
    .ok (.CameraRecordingStopReply { recording := none }, env.db)

/-- `handle_cloud_sync` (message_v2.rs lines 311-325). -/
def handle_cloud_sync (env : Env) : Except HandlerError NatsReply :=
  let start_ts := env.now_rfc3339_first
  match env.api.new_ok with
  | .error e => .error (.api e)
  | .ok _ =>
  match env.api.sync with
  | .error e => .error (.api e)
  | .ok _ =>
  match env.factory.sync_optional_pipelines with
  | .error e => .error (.pipeline e)
  | .ok _ =>
    .ok (.PrintNannyCloudSyncReply
      { start_ts := start_ts, end_ts := env.now_rfc3339_second })

/-- `handle_device_info_load` (message_v2.rs lines 328-372); the ifaddrs
closure swallows its own errors into an empty list, so it is total. -/
def handle_device_info_load (env : Env) : Except HandlerError NatsReply :=
  match env.settings with
  | .error e => .error (.settings e)
  | .ok settings =>
  match settings.issue_txt with
  | .error e => .error (.io e)
  | .ok issue =>
  match settings.os_release with
  | .error e => .error (.io e)
  | .ok os_release =>
    .ok (.DeviceInfoLoadReply
      { issue := issue, os_release := os_release,
        printnanny_cli_version := "", ifaddrs := env.ifaddrs })

/-- `handle_printnanny_cloud_auth` (message_v2.rs lines 375-403): a failed
cloud connection is reported inside an `Ok` reply with status 403. -/
def handle_printnanny_cloud_auth (env : Env)
    (request : PrintNannyCloudAuthRequest) : Except HandlerError NatsReply :=
  match env.api.new_ok with
  | .error e => .error (.api e)
  | .ok _ =>
  match env.api.connect_cloud_account request.api_url request.api_token with
  | .ok _ =>
    .ok (.PrintNannyCloudAuthReply
      { status_code := 200,
        msg := "Success! Connected account: " ++ request.email })
  | .error e =>
    .ok (.PrintNannyCloudAuthReply
      { status_code := 403, msg := "Error connecting account: " ++ e })

/-- `handle_crash_report` (message_v2.rs lines 405-412). -/
def handle_crash_report (env : Env) (request : CrashReportOsLogsRequest) :
    Except HandlerError NatsReply :=
  match env.api.new_ok with
  | .error e => .error (.api e)
  | .ok _ =>
  match env.api.crash_report_update request.id with
  | .error e => .error (.api e)
  | .ok result =>
    .ok (.CrashReportOsLogsReply { id := result.1, updated_dt := result.2 })

/-- `handle_cameras_load` (message_v2.rs lines 414-424). -/
def handle_cameras_load (env : Env) : Except HandlerError NatsReply :=
  match env.cameras with
  | .error e => .error (.io e)
  | .ok cameras => .ok (.CameraLoadReply { cameras := cameras })

/-- `build_settings_revert_reply` (message_v2.rs lines 481-497). -/
def build_settings_revert_reply (settings : SettingsEngineEnv)
    (request : SettingsFileRevertRequest) (files : List SettingsFile) :
    Except HandlerError NatsReply :=
  match settings.head_commit with
  | .error e => .error (.vcs e)
  | .ok head =>
  match settings.rev_list with
  | .error e => .error (.vcs e)
  | .ok history =>
    .ok (.SettingsFileRevertReply
      { app := request.app, files := files,
        git_head_commit := head.oid, git_history := history })

/-- The four per-domain revert handlers (message_v2.rs lines 426-479),
which differ only in the domain whose payload is reloaded: load settings,
parse the commit oid, `git_revert_hooks`, re-read the domain payload, build
the reply. -/
def handle_domain_settings_revert (env : Env) (app : SettingsApp)
    (request : SettingsFileRevertRequest) : Except HandlerError NatsReply :=
  match env.settings with
  | .error e => .error (.settings e)
  | .ok settings =>
  match env.oid_parse request.git_commit with
  | .error e => .error (.oid e)
  | .ok oid =>
  match settings.git_revert_outcome oid with
  | .error e => .error (.vcs e)
  | .ok _ =>
  match settings.payload app with
  | .error e => .error (.settings e)
  | .ok file =>
    build_settings_revert_reply settings request [file]

/-- `handle_settings_revert` (message_v2.rs lines 650-657): dispatch on
`request.app`. -/
def handle_settings_revert (env : Env) (request : SettingsFileRevertRequest) :
    Except HandlerError NatsReply :=
  match request.app with
  | .Printnanny => handle_domain_settings_revert env .Printnanny request
  | .Octoprint => handle_domain_settings_revert env .Octoprint request
  | .Moonraker => handle_domain_settings_revert env .Moonraker request
  | .Klipper => handle_domain_settings_revert env .Klipper request

/-- `build_settings_apply_reply` (message_v2.rs lines 553-566). -/
def build_settings_apply_reply (settings : SettingsEngineEnv)
    (file : SettingsFile) : Except HandlerError NatsReply :=
  match settings.head_commit with
  | .error e => .error (.vcs e)
  | .ok head =>
  match settings.rev_list with
  | .error e => .error (.vcs e)
  | .ok history =>
    .ok (.SettingsFileApplyReply
      { file := file, git_head_commit := head.oid, git_history := history })

/-- The four per-domain apply handlers (message_v2.rs lines 499-551):
`save_and_commit(request.file.content, Some(request.git_commit_msg))`,
re-read the domain payload, build the reply. -/
def handle_domain_settings_apply (env : Env) (app : SettingsApp)
    (request : SettingsFileApplyRequest) : Except HandlerError NatsReply :=
  match env.settings with
  | .error e => .error (.settings e)
  | .ok settings =>
  match settings.save_and_commit_outcome request.file.content
      (some request.git_commit_msg) with
  | .error e => .error (.vcs e)
  | .ok _ =>
  match settings.payload app with
  | .error e => .error (.settings e)
  | .ok file =>
    build_settings_apply_reply settings file

/-- `handle_settings_apply` (message_v2.rs lines 620-627): dispatch on
`request.file.app`. -/
def handle_settings_apply (env : Env) (request : SettingsFileApplyRequest) :
    Except HandlerError NatsReply :=
  match request.file.app with
  | .Printnanny => handle_domain_settings_apply env .Printnanny request
  | .Octoprint => handle_domain_settings_apply env .Octoprint request
  | .Moonraker => handle_domain_settings_apply env .Moonraker request
  | .Klipper => handle_domain_settings_apply env .Klipper request

/-- `handle_settings_load` (message_v2.rs lines 602-618): head, history,
then the four domain payloads in fixed order. -/
def handle_settings_load (env : Env) : Except HandlerError NatsReply :=
  match env.settings with
  | .error e => .error (.settings e)
  | .ok settings =>
  match settings.head_commit with
  | .error e => .error (.vcs e)
  | .ok head =>
  match settings.rev_list with
  | .error e => .error (.vcs e)
  | .ok history =>
  match settings.payload .Printnanny with
  | .error e => .error (.settings e)
  | .ok f1 =>
  match settings.payload .Octoprint with
  | .error e => .error (.settings e)
  | .ok f2 =>
  match settings.payload .Moonraker with
  | .error e => .error (.settings e)
  | .ok f3 =>
  match settings.payload .Klipper with
  | .error e => .error (.settings e)
  | .ok f4 =>
    .ok (.SettingsFileLoadReply
      { files := [f1, f2, f3, f4], git_head_commit := head.oid,
        git_history := history })

/-- `handle_camera_settings_load` (message_v2.rs lines 629-634). -/
def handle_camera_settings_load (env : Env) : Except HandlerError NatsReply :=
  match env.settings with
  | .error e => .error (.settings e)
  | .ok settings =>
    .ok (.CameraSettingsFileLoadReply settings.video_stream)

/-- `handle_camera_settings_apply` (message_v2.rs lines 636-648): overwrite
`settings.video_stream` with the request, serialize the whole settings
document, commit it with a timestamped message, and echo the new
video-stream section back. -/
def handle_camera_settings_apply (env : Env) (request : VideoStreamSettings) :
    Except HandlerError NatsReply :=
  match env.settings with
  | .error e => .error (.settings e)
  | .ok settings =>
  match settings.to_toml_string_outcome with
  | .error e => .error (.settings e)
  | .ok content =>
  let commit_msg := "Updated PrintNannySettings.camera @ " ++ env.camera_commit_ts
  match settings.save_and_commit_outcome content (some commit_msg) with
  | .error e => .error (.vcs e)
  | .ok _ =>
    .ok (.CameraSettingsFileApplyReply request)

/-- The change-tuple translation closure shared verbatim by
`handle_disable_units_request` (message_v2.rs lines 669-685) and
`handle_enable_units_request` (lines 712-729): `"symlink"` and `"unlink"`
both construct `SystemdUnitChangeState::Symlink` (the `"unlink"` arm at
lines 676-679 and 720-723 also builds `Symlink`); any other raw kind hits
`unimplemented!`. -/
def translate_unit_change (c : RawUnitChange) :
    Except HandlerError SystemdUnitChange :=
  match c.1 with
  | "symlink" =>
    .ok { change := .Symlink, file := c.2.1, destination := c.2.2 }
  | "unlink" =>
    .ok { change := .Symlink, file := c.2.1, destination := c.2.2 }
  | other =>
    .error (.panicked ("No implementation for systemd change type " ++ other))

/-- Translate a raw change list elementwise, failing fast on the first
unknown kind. -/
def translate_unit_changes : List RawUnitChange →
    Except HandlerError (List SystemdUnitChange)
  | [] => .ok []
  | c :: rest =>
    match translate_unit_change c with
    | .error e => .error e
    | .ok ch =>
      match translate_unit_changes rest with
      | .error e => .error e
      | .ok chs => .ok (ch :: chs)

/-- `handle_disable_units_request` (message_v2.rs lines 659-699):
`disable_unit_files(files, false)`, translate the raw changes, daemon
reload, reply. -/
def handle_disable_units_request (env : Env)
    (request : SystemdManagerUnitFilesRequest) : Except HandlerError NatsReply :=
  match env.dbus.connection with
  | .error e => .error (.dbus e)
  | .ok _ =>
  match env.dbus.disable_unit_files request.files with
  | .error e => .error (.dbus e)
  | .ok raw =>
  match translate_unit_changes raw with
  | .error e => .error e
  | .ok changes =>
  match env.dbus.reload with
  | .error e => .error (.dbus e)
  | .ok _ =>
    .ok (.SystemdManagerDisableUnitsReply
      { changes := changes, request := request })

/-- `handle_enable_units_request` (message_v2.rs lines 701-743):
`enable_unit_files(files, false, false)` (the enablement carries-info flag
is dropped), translate the raw changes, daemon reload, reply. -/
def handle_enable_units_request (env : Env)
    (request : SystemdManagerUnitFilesRequest) : Except HandlerError NatsReply :=
  match env.dbus.connection with
  | .error e => .error (.dbus e)
  | .ok _ =>
  match env.dbus.enable_unit_files request.files with
  | .error e => .error (.dbus e)
  | .ok raw =>
  match translate_unit_changes raw.2 with
  | .error e => .error e
  | .ok changes =>
  match env.dbus.reload with
  | .error e => .error (.dbus e)
  | .ok _ =>
    .ok (.SystemdManagerEnableUnitsReply
      { changes := changes, request := request })

/-- `get_systemd_unit` (message_v2.rs lines 745-756). -/
def get_systemd_unit (env : Env) (unit_name : String) :
    Except HandlerError SystemdUnit :=
  match env.dbus.connection with
  | .error e => .error (.dbus e)
  | .ok _ =>
  match env.dbus.load_unit unit_name with
  | .error e => .error (.dbus e)
  | .ok unit => .ok unit

/-- `handle_get_unit_request` (message_v2.rs lines 758-765). -/
def handle_get_unit_request (env : Env)
    (request : SystemdManagerGetUnitRequest) : Except HandlerError NatsReply :=
  match get_systemd_unit env request.unit_name with
  | .error e => .error e
  | .ok unit => .ok (.SystemdManagerGetUnitReply { unit := unit })

/-- The raw-string-to-state translation of
`handle_get_unit_file_state_request` (message_v2.rs lines 775-786): nine
known strings, everything else hits `unimplemented!`. -/
def translate_unit_file_state (s : String) :
    Except HandlerError SystemdUnitFileState :=
  match s with
  | "enabled" => .ok .Enabled
  | "enabled-runtime" => .ok .EnabledMinusRuntime
  | "linked" => .ok .Linked
  | "linked-runtime" => .ok .LinkedMinusRuntime
  | "masked" => .ok .Masked
  | "masked-runtime" => .ok .MaskedMinusRuntime
  | "static" => .ok .Static
  | "disabled" => .ok .Disabled
  | "invalid" => .ok .Invalid
  | other => .error (.panicked ("unknown unit file state " ++ other))

/-- `handle_get_unit_file_state_request` (message_v2.rs lines 767-794). -/
def handle_get_unit_file_state_request (env : Env)
    (request : SystemdManagerGetUnitRequest) : Except HandlerError NatsReply :=
  match env.dbus.connection with
  | .error e => .error (.dbus e)
  | .ok _ =>
  match env.dbus.get_unit_file_state request.unit_name with
  | .error e => .error (.dbus e)
  | .ok raw =>
  match translate_unit_file_state raw with
  | .error e => .error e
  | .ok state =>
    .ok (.SystemdManagerGetUnitFileStateReply
      { unit_file_state := state, request := request })

/-- `handle_restart_unit_request` (message_v2.rs lines 817-833). -/
def handle_restart_unit_request (env : Env)
    (request : SystemdManagerRestartUnitRequest) : Except HandlerError NatsReply :=
  match env.dbus.connection with
  | .error e => .error (.dbus e)
  | .ok _ =>
  match env.dbus.restart_unit request.unit_name "replace" with
  | .error e => .error (.dbus e)
  | .ok job =>
  match get_systemd_unit env request.unit_name with
  | .error e => .error e
  | .ok unit =>
    .ok (.SystemdManagerRestartUnitReply { job := job, unit := unit })

/-- `handle_start_unit_request` (message_v2.rs lines 835-850). -/
def handle_start_unit_request (env : Env)
    (request : SystemdManagerStartUnitRequest) : Except HandlerError NatsReply :=
  match env.dbus.connection with
  | .error e => .error (.dbus e)
  | .ok _ =>
  match env.dbus.start_unit request.unit_name "replace" with
  | .error e => .error (.dbus e)
  | .ok job =>
  match get_systemd_unit env request.unit_name with
  | .error e => .error e
  | .ok unit =>
    .ok (.SystemdManagerStartUnitReply { job := job, unit := unit })

/-- `handle_stop_unit_request` (message_v2.rs lines 852-867). -/
def handle_stop_unit_request (env : Env)
    (request : SystemdManagerStopUnitRequest) : Except HandlerError NatsReply :=
  match env.dbus.connection with
  | .error e => .error (.dbus e)
  | .ok _ =>
  match env.dbus.stop_unit request.unit_name "replace" with
  | .error e => .error (.dbus e)
  | .ok job =>
  match get_systemd_unit env request.unit_name with
  | .error e => .error e
  | .ok unit =>
    .ok (.SystemdManagerStopUnitReply { job := job, unit := unit })

/-- `NatsRequestHandler::handle` for `NatsRequest` (message_v2.rs lines
951-1014): exhaustive dispatch from request variant to handler. The
`spawn_blocking` wrappers only relay the inner result (their join-error
path adds no new `Ok` shapes and is not modelled). -/
def handle (env : Env) (req : NatsRequest) : Except HandlerError NatsReply :=
  match req with
  | .CameraRecordingStartRequest =>
    (handle_camera_recording_start env).map Prod.fst
  | .CameraRecordingStopRequest =>
    (handle_camera_recording_stop env).map Prod.fst
  | .CameraRecordingLoadRequest => handle_camera_recording_load env
  | .PrintNannyCloudSyncRequest => handle_cloud_sync env
  | .CameraLoadRequest => handle_cameras_load env
  | .CrashReportOsLogsRequest request => handle_crash_report env request
  | .DeviceInfoLoadRequest => handle_device_info_load env
  | .PrintNannyCloudAuthRequest request =>
    handle_printnanny_cloud_auth env request
  | .SettingsFileLoadRequest => handle_settings_load env
  | .SettingsFileApplyRequest request => handle_settings_apply env request
  | .SettingsFileRevertRequest request => handle_settings_revert env request
  | .CameraSettingsFileLoadRequest => handle_camera_settings_load env
  | .CameraSettingsFileApplyRequest request =>
    handle_camera_settings_apply env request
  | .SystemdManagerDisableUnitsRequest request =>
    handle_disable_units_request env request
  | .SystemdManagerEnableUnitsRequest request =>
    handle_enable_units_request env request
  | .SystemdManagerGetUnitRequest request =>
    handle_get_unit_request env request
  | .SystemdManagerGetUnitFileStateRequest request =>
    handle_get_unit_file_state_request env request
  | .SystemdManagerRestartUnitRequest request =>
    handle_restart_unit_request env request
  | .SystemdManagerStartUnitRequest request =>
    handle_start_unit_request env request
  | .SystemdManagerStopUnitRequest request =>
    handle_stop_unit_request env request

/-! ## Concrete environments used to instantiate theorems -/

/-- A dbus environment in which every call succeeds with neutral data. -/
def dbus0 : DbusEnv :=
  { connection := .ok ()
    disable_unit_files := fun _ => .ok []
    enable_unit_files := fun _ => .ok (false, [])
    reload := .ok ()
    start_unit := fun _ _ => .ok "/org/freedesktop/systemd1/job/1"
    stop_unit := fun _ _ => .ok "/org/freedesktop/systemd1/job/2"
    restart_unit := fun _ _ => .ok "/org/freedesktop/systemd1/job/3"
    get_unit_file_state := fun _ => .ok "enabled"
    load_unit := fun n => .ok { unit_name := n } }

/-- A cloud API environment in which every call succeeds. -/
def api0 : ApiEnv :=
  { new_ok := .ok ()
    connect_cloud_account := fun _ _ => .ok ()
    crash_report_update := fun i => .ok (i, "2023-01-01T00:00:00Z")
    sync := .ok () }

/-- A settings instance whose engine operations all succeed. -/
def settingsEngine0 : SettingsEngineEnv :=
  { video_stream := { hls_enabled := true, recording_cloud_sync := true }
    payload := fun app => .ok
      { app := app, file_name := "printnanny.toml", file_format := .Toml,
        content := "" }
    head_commit := .ok { oid := "0", header := "", message := "", ts := 0 }
    rev_list := .ok []
    save_and_commit_outcome := fun _ _ => .ok ()
    git_revert_outcome := fun _ => .ok ()
    to_toml_string_outcome := .ok ""
    issue_txt := .ok "PrintNanny OS"
    os_release := .ok "ID=printnanny" }

/-- A pipeline factory environment in which every call succeeds. -/
def factory0 : FactoryEnv :=
  { start_video_recording_pipeline := fun _ => .ok ()
    stop_video_recording_pipeline := .ok ()
    sync_optional_pipelines := .ok () }

/-- A fully successful effect environment over an empty store. -/
def env0 : Env :=
  { db := { recordings := [] }
    fresh_recording_id := "b9f5c0de"
    video_path := "/home/printnanny/video"
    now := 7
    now_rfc3339_first := "2023-01-01T00:00:00Z"
    now_rfc3339_second := "2023-01-01T00:00:05Z"
    camera_commit_ts := "SystemTime(2023-01-01)"
    settings := .ok settingsEngine0
    factory := factory0
    dbus := dbus0
    api := api0
    ifaddrs := ["lo"]
    cameras := .ok ["imx219"]
    oid_parse := fun _ => .ok 0 }

/-- Parsers that reject every payload. -/
def parsers0 : PayloadParsers :=
  { crashReportOsLogs := fun _ => none
    printNannyCloudAuth := fun _ => none
    settingsFileApply := fun _ => none
    settingsFileRevert := fun _ => none
    videoStreamSettings := fun _ => none
    systemdManagerUnitFiles := fun _ => none
    systemdManagerGetUnit := fun _ => none
    systemdManagerRestartUnit := fun _ => none
    systemdManagerStartUnit := fun _ => none
    systemdManagerStopUnit := fun _ => none }

/-- A domain repository holding a single initial commit of an empty file. -/
def vcsRepoInit : GitRepo :=
  { commits := [{ oid := 0, message := "initial", content := "" }]
    workdir := ""
    index := "" }

/-! ## Helper lemmas -/

/-- A payload parse step yields the constructed request or the typed
deserialization error, never anything else. -/
theorem parsePayload_shapes {α : Type} (p : Payload → Option α)
    (payload : Payload) (mk : α → NatsRequest) :
    (∃ r, parsePayload p payload mk = .ok r) ∨
      parsePayload p payload mk = .error .payloadDeserialization := by
  unfold parsePayload
  cases p payload <;> simp

/-- Membership through descending insertion. -/
theorem mem_insertByStartDesc (r x : VideoRecording) (l : List VideoRecording) :
    x ∈ VideoRecording.insertByStartDesc r l ↔ x = r ∨ x ∈ l := by
  induction l with
  | nil => simp [VideoRecording.insertByStartDesc]
  | cons y ys ih =>
    unfold VideoRecording.insertByStartDesc
    by_cases hk :
        VideoRecording.recordingStartKey y < VideoRecording.recordingStartKey r
    · simp only [if_pos hk, List.mem_cons]
    · simp only [if_neg hk, List.mem_cons, ih]
      tauto

/-- Sorting by `recording_start` preserves membership. -/
theorem mem_sortByStartDesc (x : VideoRecording) (l : List VideoRecording) :
    x ∈ VideoRecording.sortByStartDesc l ↔ x ∈ l := by
  induction l with
  | nil => simp [VideoRecording.sortByStartDesc]
  | cons y ys ih =>
    simp [VideoRecording.sortByStartDesc] at ih ⊢
    rw [mem_insertByStartDesc]
    tauto

/-- The current recording returned by `get_current` is a stored row with
`capture_done = false`. -/
theorem get_current_mem (db : DbState) (r : VideoRecording)
    (h : VideoRecording.get_current db = some r) :
    r ∈ db.recordings ∧ r.capture_done = false := by
  unfold VideoRecording.get_current at h
  have hmem := List.mem_of_mem_head? h
  rw [mem_sortByStartDesc] at hmem
  simp only [List.mem_filter, Bool.not_eq_true'] at hmem
  exact ⟨hmem.1, hmem.2⟩

/-- `applyChangeset` never touches the row id. -/
theorem applyChangeset_id (upd : UpdateVideoRecording) (r : VideoRecording) :
    (applyChangeset upd r).id = r.id := rfl

/-- List form of the update/lookup interaction: after mapping the
conditional changeset over the rows, `find?` on the id returns some stored
row with the changeset applied, provided a row with that id exists. -/
theorem find?_map_changeset (rid : String) (upd : UpdateVideoRecording)
    (l : List VideoRecording) (h : ∃ x ∈ l, x.id = rid) :
    ∃ x, x ∈ l ∧ x.id = rid ∧
      (l.map (fun r => if r.id = rid then applyChangeset upd r else r)).find?
          (fun r => r.id = rid) = some (applyChangeset upd x) := by
  induction l with
  | nil => simp at h
  | cons y ys ih =>
    by_cases hy : y.id = rid
    · refine ⟨y, List.mem_cons_self y ys, hy, ?_⟩
      simp [List.find?_cons, hy, applyChangeset_id]
    · obtain ⟨x0, hx0, hid0⟩ := h
      rcases List.mem_cons.mp hx0 with rfl | hx0ys
      · exact absurd hid0 hy
      · obtain ⟨x, hxmem, hxid, hfind⟩ := ih ⟨x0, hx0ys, hid0⟩
        refine ⟨x, List.mem_cons_of_mem y hxmem, hxid, ?_⟩
        simpa [List.find?_cons, hy] using hfind

/-- After `update db rid upd`, looking up `rid` finds a stored row with the
changeset applied, provided some row with that id exists. -/
theorem get_by_id_update (db : DbState) (rid : String)
    (upd : UpdateVideoRecording)
    (h : ∃ x ∈ db.recordings, x.id = rid) :
    ∃ x, x ∈ db.recordings ∧ x.id = rid ∧
      VideoRecording.get_by_id (VideoRecording.update db rid upd) rid =
        .ok (applyChangeset upd x) := by
  obtain ⟨x, hxmem, hxid, hfind⟩ := find?_map_changeset rid upd db.recordings h
  refine ⟨x, hxmem, hxid, ?_⟩
  unfold VideoRecording.get_by_id VideoRecording.update
  simp only [hfind]

/-! ## C4: subject routing of `deserialize_payload` -/

/-- C4: for every subject string outside the closed pattern set,
`deserialize_payload` fails with the unroutable-subject error; for every
known pattern and any payload bytes it returns `Ok` or the typed payload
deserialization error — in particular it never reports an unroutable
subject for a known pattern. -/
theorem deserialize_payload_routing (P : PayloadParsers) (subject : String)
    (payload : Payload) :
    (subject ∉ knownSubjectPatterns →
      deserialize_payload P subject payload =
        .error (.unroutableSubject subject)) ∧
    (subject ∈ knownSubjectPatterns →
      ((∃ r, deserialize_payload P subject payload = .ok r) ∨
        deserialize_payload P subject payload =
          .error .payloadDeserialization)) := by
  constructor
  · intro h
    simp only [knownSubjectPatterns, List.mem_cons, List.not_mem_nil,
      or_false, not_or] at h
    obtain ⟨h1, h2, h3, h4, h5, h6, h7, h8, h9, h10, h11, h12, h13, h14,
      h15, h16, h17, h18, h19, h20⟩ := h
    simp [deserialize_payload, h1, h2, h3, h4, h5, h6, h7, h8, h9, h10,
      h11, h12, h13, h14, h15, h16, h17, h18, h19, h20]
  · intro h
    fin_cases h <;>
      first
        | exact Or.inl ⟨_, rfl⟩
        | (simp only [deserialize_payload]
           norm_num
           exact parsePayload_shapes _ payload _)

/-- C4 witness: the unroutable arm at the concrete subject `"pi.unknown"`
and the known arm at the concrete pattern
`"pi.{pi_id}.settings.file.apply"` with an unparseable payload. -/
theorem deserialize_payload_routing_witness :
    deserialize_payload parsers0 "pi.unknown" [] =
      .error (.unroutableSubject "pi.unknown") ∧
    ((∃ r, deserialize_payload parsers0 "pi.{pi_id}.settings.file.apply" [] =
        .ok r) ∨
      deserialize_payload parsers0 "pi.{pi_id}.settings.file.apply" [] =
        .error .payloadDeserialization) :=
  ⟨(deserialize_payload_routing parsers0 "pi.unknown" []).1 (by decide),
   (deserialize_payload_routing parsers0 "pi.{pi_id}.settings.file.apply"
      []).2 (by decide)⟩

/-! ## C10: payload-free variants ignore the payload bytes -/

/-- C10: for each of the eight subject patterns whose variant carries no
payload, `deserialize_payload` returns `Ok` of the fixed variant for every
payload byte string, valid JSON or not: the payload is never inspected. -/
theorem payload_free_subjects_accept_any_payload (P : PayloadParsers)
    (payload : Payload) :
    deserialize_payload P "pi.{pi_id}.command.camera.recording.start" payload
        = .ok .CameraRecordingStartRequest ∧
    deserialize_payload P "pi.{pi_id}.command.camera.recording.stop" payload
        = .ok .CameraRecordingStopRequest ∧
    deserialize_payload P "pi.{pi_id}.command.camera.recording.load" payload
        = .ok .CameraRecordingLoadRequest ∧
    deserialize_payload P "pi.{pi_id}.command.cloud.sync" payload
        = .ok .PrintNannyCloudSyncRequest ∧
    deserialize_payload P "pi.{pi_id}.cameras.load" payload
        = .ok .CameraLoadRequest ∧
    deserialize_payload P "pi.{pi_id}.device_info.load" payload
        = .ok .DeviceInfoLoadRequest ∧
    deserialize_payload P "pi.{pi_id}.settings.file.load" payload
        = .ok .SettingsFileLoadRequest ∧
    deserialize_payload P "pi.{pi_id}.settings.camera.load" payload
        = .ok .CameraSettingsFileLoadRequest :=
  ⟨rfl, rfl, rfl, rfl, rfl, rfl, rfl, rfl⟩

/-! ## C7: idempotent pipeline provisioning -/

/-- C7: when the remote endpoint already holds the pipeline name, creation
reports CONFLICT and `make_pipeline` turns it into success, so provisioning
the same name twice succeeds both times; every non-CONFLICT creation error
is propagated unchanged to the caller. -/
theorem make_pipeline_idempotent (server : GstServer) (name : String)
    (h : name ∈ server.pipelines) :
    (provision server name).1 = .ok () ∧
    (provision (provision server name).2 name).1 = .ok () ∧
    make_pipeline (.error (.BadStatus STATUS_CONFLICT)) = .ok () ∧
    (∀ e : GstClientError, e ≠ .BadStatus STATUS_CONFLICT →
      make_pipeline (.error e) = .error e) := by
  refine ⟨?_, ?_, rfl, ?_⟩
  · simp [provision, pipeline_create, h, make_pipeline, STATUS_CONFLICT]
  · simp [provision, pipeline_create, h, make_pipeline, STATUS_CONFLICT]
  · intro e he
    cases e with
    | BadStatus code =>
      have : code ≠ STATUS_CONFLICT := by
        intro hc
        exact he (by rw [hc])
      simp [make_pipeline, this]
    | RequestFailed m => rfl

/-- C7 witness: a server already holding `"camera"`. -/
theorem make_pipeline_idempotent_witness :
    (provision { pipelines := ["camera"] } "camera").1 = .ok () ∧
    (provision (provision { pipelines := ["camera"] } "camera").2
        "camera").1 = .ok () ∧
    make_pipeline (.error (.BadStatus STATUS_CONFLICT)) = .ok () ∧
    (∀ e : GstClientError, e ≠ .BadStatus STATUS_CONFLICT →
      make_pipeline (.error e) = .error e) :=
  make_pipeline_idempotent { pipelines := ["camera"] } "camera" (by decide)

/-! ## C6: apply/load round-trip on a settings domain -/

/-- C6: a successful `save_and_commit` of content `C` followed immediately
by `to_payload` on the same domain returns file content equal to `C`. -/
theorem save_and_commit_to_payload_roundtrip (repo : GitRepo)
    (app : SettingsApp) (file_name content : String) (fmt : SettingsFormat)
    (msg : Option String) (repo2 : GitRepo)
    (h : GitRepo.save_and_commit repo file_name content msg = .ok repo2) :
    (GitRepo.to_payload repo2 app file_name fmt).content = content := by
  cases hc : repo.commits with
  | nil =>
    simp [GitRepo.save_and_commit, GitRepo.git_commit, GitRepo.git_add_all,
      GitRepo.write_settings, hc] at h
  | cons c cs =>
    cases repo2 with
    | mk commits2 workdir2 index2 =>
      simp [GitRepo.save_and_commit, GitRepo.git_commit, GitRepo.git_add_all,
        GitRepo.write_settings, hc, GitRepo.to_payload] at h ⊢
      simp_all

/-- A domain repository after a successful commit of `"hello"`. -/
def repoC6 : GitRepo :=
  (GitRepo.save_and_commit vcsRepoInit "printnanny.toml" "hello"
    (some "m")).toOption.getD vcsRepoInit

/-- C6 witness: committing `"hello"` on the initial repository and loading
it back returns `"hello"`. -/
theorem save_and_commit_to_payload_roundtrip_witness :
    (GitRepo.to_payload repoC6 .Printnanny "printnanny.toml" .Toml).content
      = "hello" :=
  save_and_commit_to_payload_roundtrip vcsRepoInit .Printnanny
    "printnanny.toml" "hello" .Toml (some "m") repoC6 rfl

/-! ## C2: revert semantics -/

/-- C2 counterexample: after `apply(D,"a","m1")` then `apply(D,"b","m2")`,
reverting HEAD restores file content `"a"` but appends NO new commit — the
commit history has length 3 both before and after the revert
(`git2::Repository::revert` only patches the working tree and index), so
the history is not strictly longer as the claim states. -/
theorem revert_appends_no_commit_counterexample :
    (do
      let r1 ← GitRepo.save_and_commit vcsRepoInit "printnanny.toml" "a"
        (some "m1")
      let r2 ← GitRepo.save_and_commit r1 "printnanny.toml" "b" (some "m2")
      let r3 ← GitRepo.git_revert_hooks r2 none
      pure (r2.commits.length, r3.commits.length, r3.workdir)) =
    Except.ok (3, 3, "a") := rfl

/-- C2 (amended): a successful revert applies the target commit's inverse
patch to the working tree and index on top of HEAD; no commit is removed or
altered — but no new commit is appended either, so the commit history is
unchanged (not strictly longer); in the apply `"a"`, apply `"b"`,
revert-HEAD scenario the resulting file content equals `"a"`. -/
theorem git_revert_inverse_patch_history_unchanged :
    (∀ (repo : GitRepo) (oid : Option Nat) (repo2 : GitRepo),
      GitRepo.git_revert_hooks repo oid = .ok repo2 →
      repo2.commits = repo.commits) ∧
    ((do
      let r1 ← GitRepo.save_and_commit vcsRepoInit "printnanny.toml" "a"
        (some "m1")
      let r2 ← GitRepo.save_and_commit r1 "printnanny.toml" "b" (some "m2")
      let r3 ← GitRepo.git_revert_hooks r2 none
      pure (r2.commits.length, r3.commits.length, r3.workdir)) =
    Except.ok (3, 3, "a")) := by
  refine ⟨?_, rfl⟩
  intro repo oid repo2 h
  cases oid with
  | some sha =>
    cases hf : GitRepo.findCommitWithParent repo.commits sha with
    | none =>
      simp [GitRepo.git_revert_hooks, GitRepo.git_revert, hf] at h
    | some cp =>
      obtain ⟨c, parent⟩ := cp
      by_cases hw : repo.workdir = c.content
      · simp only [GitRepo.git_revert_hooks, GitRepo.git_revert, hf,
          if_pos hw] at h
        injection h with h
        subst h
        rfl
      · simp [GitRepo.git_revert_hooks, GitRepo.git_revert, hf, hw] at h
  | none =>
    cases hc : repo.commits with
    | nil =>
      simp [GitRepo.git_revert_hooks, GitRepo.git_revert, hc] at h
    | cons c rest =>
      by_cases hw : repo.workdir = c.content
      · simp only [GitRepo.git_revert_hooks, GitRepo.git_revert, hc,
          if_pos hw] at h
        injection h with h
        subst h
        rfl
      · simp [GitRepo.git_revert_hooks, GitRepo.git_revert, hc, hw] at h

/-- The repository after `apply("a","m1")` then `apply("b","m2")` on the
initial repository. -/
def repoAB : GitRepo :=
  { commits :=
      [ { oid := 2, message := "m2", content := "b" }
      , { oid := 1, message := "m1", content := "a" }
      , { oid := 0, message := "initial", content := "" } ]
    workdir := "b"
    index := "b" }

/-- C2 witness: the history-preservation clause applied to the concrete
revert of HEAD on `repoAB`. -/
theorem git_revert_inverse_patch_history_unchanged_witness :
    ({ commits := repoAB.commits, workdir := "a", index := "a" } :
      GitRepo).commits = repoAB.commits :=
  git_revert_inverse_patch_history_unchanged.1 repoAB none
    { commits := repoAB.commits, workdir := "a", index := "a" } rfl

/-! ## C8: stop with no current recording -/

/-- C8: when no row has `capture_done = false`, the stop handler succeeds
with a reply whose recording reference is absent, and the store is left
unchanged — not an error. -/
theorem stop_without_current_recording_is_ok (env : Env)
    (settings : SettingsEngineEnv)
    (hcur : VideoRecording.get_current env.db = none)
    (hstop : env.factory.stop_video_recording_pipeline = .ok ())
    (hset : env.settings = .ok settings) :
    handle_camera_recording_stop env =
      .ok (.CameraRecordingStopReply { recording := none }, env.db) := by
  unfold handle_camera_recording_stop
  rw [hcur, hstop, hset]
  cases settings.video_stream.recording_cloud_sync <;> simp

/-- An environment with an empty recording store. -/
def envC8 : Env := env0

/-- C8 witness: the empty store. -/
theorem stop_without_current_recording_is_ok_witness :
    handle_camera_recording_stop envC8 =
      .ok (.CameraRecordingStopReply { recording := none }, envC8.db) :=
  stop_without_current_recording_is_ok envC8 settingsEngine0 rfl rfl rfl

/-! ## C9: stop updates the row regardless of the sync-unit outcome -/

/-- C9: with a current recording, cloud sync enabled and a healthy dbus
connection, the stop handler marks that row `capture_done = true` and sets
`recording_end` even when the `StartUnit` call for the per-recording
templated sync unit fails: the sync-unit error is discarded and the
operation still succeeds with the updated row in its reply. -/
theorem stop_updates_row_despite_sync_unit_failure (env : Env)
    (rec : VideoRecording) (settings : SettingsEngineEnv) (e : Err)
    (hcur : VideoRecording.get_current env.db = some rec)
    (hstop : env.factory.stop_video_recording_pipeline = .ok ())
    (hset : env.settings = .ok settings)
    (hsync : settings.video_stream.recording_cloud_sync = true)
    (hconn : env.dbus.connection = .ok ())
    (hfail : env.dbus.start_unit
        (PRINTNANNY_RECORDING_SERVICE_TEMPLATE ++ rec.id ++ ".service")
        "fail" = .error e) :
    ∃ rec2,
      handle_camera_recording_stop env =
        .ok (.CameraRecordingStopReply { recording := some rec2 },
          VideoRecording.update env.db rec.id (stopChangeset env.now)) ∧
      rec2.capture_done = true ∧ rec2.recording_end = some env.now := by
  have hmem : ∃ x ∈ env.db.recordings, x.id = rec.id :=
    ⟨rec, (get_current_mem env.db rec hcur).1, rfl⟩
  obtain ⟨x, hxmem, hxid, hfind⟩ :=
    get_by_id_update env.db rec.id (stopChangeset env.now) hmem
  refine ⟨applyChangeset (stopChangeset env.now) x, ?_, rfl, rfl⟩
  simp only [handle_camera_recording_stop, hcur, hstop, hset, hsync, hconn,
    hfail, hfind]
  simp

/-- A store holding exactly one current recording. -/
def recC9 : VideoRecording :=
  { id := "11111111-2222-3333-4444-555555555555"
    capture_done := false
    cloud_sync_done := false
    dir := "/home/printnanny/video/11111111-2222-3333-4444-555555555555"
    recording_start := some 3
    recording_end := none
    gcode_file_name := none }

/-- An environment where the templated sync unit fails to start. -/
def envC9 : Env :=
  { env0 with
    db := { recordings := [recC9] }
    dbus := { dbus0 with
      start_unit := fun _ _ =>
        .error "Unit printnanny-recording-sync@.service not found." } }

/-- C9 witness: the concrete store and failing `StartUnit`. -/
theorem stop_updates_row_despite_sync_unit_failure_witness :
    ∃ rec2,
      handle_camera_recording_stop envC9 =
        .ok (.CameraRecordingStopReply { recording := some rec2 },
          VideoRecording.update envC9.db recC9.id
            (stopChangeset envC9.now)) ∧
      rec2.capture_done = true ∧ rec2.recording_end = some envC9.now :=
  stop_updates_row_despite_sync_unit_failure envC9 recC9 settingsEngine0
    "Unit printnanny-recording-sync@.service not found."
    (by decide) rfl rfl rfl rfl rfl

/-! ## C1: no guard against a second current recording -/

/-- A recording that is still open (`capture_done = false`). -/
def recC1 : VideoRecording :=
  { id := "aaaaaaaa-bbbb-cccc-dddd-eeeeeeeeeeee"
    capture_done := false
    cloud_sync_done := false
    dir := "/home/printnanny/video/aaaaaaaa-bbbb-cccc-dddd-eeeeeeeeeeee"
    recording_start := some 2
    recording_end := none
    gcode_file_name := none }

/-- An otherwise healthy environment whose store already holds the open
recording `recC1`. -/
def envC1 : Env := { env0 with db := { recordings := [recC1] } }

/-- C1 evaluated at the failing input: with one row already open
(`capture_done = false`), `handle_camera_recording_start` (backed by
`VideoRecording::start_new`, which has no guard) succeeds and the store
ends up with TWO rows having `capture_done = false` — the claimed failure
does not happen and the at-most-one-current invariant is violated. -/
theorem start_with_open_recording_succeeds_and_duplicates :
    countCurrent envC1.db = 1 ∧
    ∃ reply db2,
      handle_camera_recording_start envC1 = .ok (reply, db2) ∧
      countCurrent db2 = 2 := by
  refine ⟨rfl, ?_⟩
  exact ⟨_, _, rfl, rfl⟩

/-! ## C3: change-kind translation of the unit-control adapter -/

/-- The environment for the disable/enable scenario: systemd reports one
raw `("unlink", path, "")` change for the disable call (the unit was
enabled) and no changes for the enable call (already enabled). -/
def envC3 : Env :=
  { env0 with
    dbus := { dbus0 with
      disable_unit_files := fun _ =>
        .ok [("unlink",
          "/etc/systemd/system/multi-user.target.wants/octoprint.service",
          "")]
      enable_unit_files := fun _ => .ok (false, []) } }

/-- C3 evaluated at the failing input: disabling the enabled unit
`octoprint.service` succeeds with exactly one change, but the adapter
reports its kind as `Symlink`, not `Unlink` — the `"unlink"` match arm
(message_v2.rs lines 676-679 and 720-723) constructs
`SystemdUnitChangeState::Symlink`. Enabling an already-enabled unit does
succeed with an empty change list. -/
theorem disable_unlink_change_reported_as_symlink :
    handle_disable_units_request envC3 { files := ["octoprint.service"] } =
      .ok (.SystemdManagerDisableUnitsReply
        { changes :=
            [{ change := .Symlink,
               file :=
                 "/etc/systemd/system/multi-user.target.wants/octoprint.service",
               destination := "" }]
          request := { files := ["octoprint.service"] } }) ∧
    handle_enable_units_request envC3 { files := ["octoprint.service"] } =
      .ok (.SystemdManagerEnableUnitsReply
        { changes := []
          request := { files := ["octoprint.service"] } }) ∧
    translate_unit_change
        ("unlink",
          "/etc/systemd/system/multi-user.target.wants/octoprint.service",
          "") ≠
      .ok { change := .Unlink,
            file :=
              "/etc/systemd/system/multi-user.target.wants/octoprint.service",
            destination := "" } := by
  refine ⟨rfl, rfl, ?_⟩
  intro h
  simp [translate_unit_change] at h

/-! ## C5: request/reply correspondence of `handle` -/

/-- Shape of a successful recording-start result: its reply component is a
`CameraRecordingStartReply`. -/
theorem handle_camera_recording_start_ok_shape (env : Env)
    (p : NatsReply × DbState)
    (h : handle_camera_recording_start env = .ok p) :
    ∃ x, p.1 = NatsReply.CameraRecordingStartReply x := by
  unfold handle_camera_recording_start at h
  simp only [] at h
  repeat' split at h
  all_goals
    first
      | (exact ⟨_, rfl⟩)
      | (injection h with h; subst h; exact ⟨_, rfl⟩)
      | (cases h)

/-- Shape of a successful recording-stop result: its reply component is a
`CameraRecordingStopReply`. -/
theorem handle_camera_recording_stop_ok_shape (env : Env)
    (p : NatsReply × DbState)
    (h : handle_camera_recording_stop env = .ok p) :
    ∃ x, p.1 = NatsReply.CameraRecordingStopReply x := by
  unfold handle_camera_recording_stop at h
  simp only [] at h
  repeat' split at h
  all_goals
    first
      | (exact ⟨_, rfl⟩)
      | (injection h with h; subst h; exact ⟨_, rfl⟩)
      | (cases h)

/-- C5: the request-to-reply mapping is total over the closed sum types —
`NatsRequest.kind` and `NatsReply.kind` are total functions to the same tag
set, each reply constructor carrying exactly one tag — and whenever
`handle` returns `Ok` it returns the reply variant carrying the same tag as
the request (e.g. a `SettingsFileLoadRequest` yields a
`SettingsFileLoadReply`, a `CameraRecordingStopRequest` yields a
`CameraRecordingStopReply`). -/
theorem handle_ok_reply_matches_request (env : Env) (req : NatsRequest)
    (r : NatsReply) (h : handle env req = .ok r) :
    NatsReply.kind r = NatsRequest.kind req := by
  cases req
  case CameraRecordingStartRequest =>
    simp only [handle] at h
    cases hx : handle_camera_recording_start env with
    | error e => simp [hx, Except.map] at h
    | ok p =>
      simp only [hx, Except.map, Except.ok.injEq] at h
      subst h
      obtain ⟨x, hx1⟩ := handle_camera_recording_start_ok_shape env p hx
      rw [hx1]
      rfl
  case CameraRecordingStopRequest =>
    simp only [handle] at h
    cases hx : handle_camera_recording_stop env with
    | error e => simp [hx, Except.map] at h
    | ok p =>
      simp only [hx, Except.map, Except.ok.injEq] at h
      subst h
      obtain ⟨x, hx1⟩ := handle_camera_recording_stop_ok_shape env p hx
      rw [hx1]
      rfl
  all_goals
    simp only [handle, handle_camera_recording_load,
      handle_camera_recording_start, handle_camera_recording_stop,
      handle_cloud_sync, handle_cameras_load, handle_crash_report,
      handle_device_info_load, handle_printnanny_cloud_auth,
      handle_settings_load, handle_settings_apply,
      handle_domain_settings_apply, build_settings_apply_reply,
      handle_settings_revert, handle_domain_settings_revert,
      build_settings_revert_reply, handle_camera_settings_load,
      handle_camera_settings_apply, handle_disable_units_request,
      handle_enable_units_request, handle_get_unit_request,
      get_systemd_unit, handle_get_unit_file_state_request,
      handle_restart_unit_request, handle_start_unit_request,
      handle_stop_unit_request, Except.map] at h
  all_goals repeat' split at h
  all_goals
    first
      | rfl
      | (injection h with h; subst h; rfl)
      | (cases h)

/-- C5 witness: the camera-load request against the all-success
environment yields the camera-load reply variant. -/
theorem handle_ok_reply_matches_request_witness :
    NatsReply.kind
        (.CameraLoadReply { cameras := ["imx219"] }) =
      NatsRequest.kind .CameraLoadRequest :=
  handle_ok_reply_matches_request env0 .CameraLoadRequest
    (.CameraLoadReply { cameras := ["imx219"] }) rfl

end PrintNanny
